import Mathlib

/-!
Verification of the MetricsEngine logic of the age-transition dashboard
(source: `src/app.py`, a single Python/streamlit script).

Embedding conventions:

* District rows and monthly-trend rows become Lean structures.  The
  float-valued `avg_ATI` column, the filter bounds and all scenario
  arithmetic are embedded over `ℚ`: every literal appearing in the claims is
  an exact rational, and pandas comparisons and the rational ones coincide on
  such values, so the embedding is exact there.
* The year-over-year growth computation (`pct_change(...) * 100`, app.py
  lines 318-324) divides by possibly-zero previous-year totals; numpy/pandas
  division of float64 values by zero yields `+inf`/`-inf` (and `nan` for
  `0/0`), it does not raise.  That fragment is therefore embedded over a
  four-point IEEE-style value domain `PFloat` (finite rational, +inf, -inf,
  NaN); for the exact rational operands involved, float division of finite
  values is the rational one, so only the special values need modelling.
* The demand forecast (app.py lines 373-381) takes a real 12th root, so it
  is embedded over `ℝ`: its value domain is `RFloat`, the IEEE-style domain
  over real finite values (finite / +inf / -inf / NaN), with the division,
  the `** (1/12)` power, the affine steps, the natural power and the final
  multiplication each modelled with float64 special-value semantics.  The
  forecast returns an `Option`: `none` models the `IndexError` that `iloc`
  raises on an empty history — the only exception the embedded fragments can
  raise.  In the division and power steps numpy propagates non-finite floats
  instead of raising.  The two `*_spec` definitions, clearly marked below,
  follow the specification's words (which postulate explicit error
  conditions) and exist only for comparison with the source-derived ones.
-/

/-- One row of `district_intelligence.csv`, with the columns the dashboard
uses (app.py lines 87-109).  `anomaly_flag` is the raw integer column of the
CSV (the Isolation-Forest convention: `-1` = anomaly, `1` = normal). -/
structure DistrictRecord where
  state : String
  district : String
  total_5_17 : ℤ
  total_17_plus : ℤ
  avg_ATI : ℚ
  anomaly_flag : ℤ
deriving DecidableEq

/-- One row of `time_trends.csv` (app.py lines 44-49); the derived
first-of-month `date` column is determined by `(year, month)` and is
represented by that pair. -/
structure MonthlyTrendRecord where
  year : ℤ
  month : ℤ
  total_5_17 : ℤ
  total_17_plus : ℤ
deriving DecidableEq

/-- app.py lines 87-98: start from the full district table, restrict to the
selected states unless the sentinel `"All States"` is selected, keep rows
whose `avg_ATI` lies in the inclusive slider range, and finally keep only
rows with `anomaly_flag == -1` when the anomalies-only box is checked. -/
def filtered_data (district_profile : List DistrictRecord) (selected_states : List String)
    (ati_lo ati_hi : ℚ) (show_anomalies : Bool) : List DistrictRecord :=
  let step1 :=
    if "All States" ∈ selected_states then district_profile
    else district_profile.filter (fun r => selected_states.contains r.state)
  let step2 := step1.filter (fun r => decide (ati_lo ≤ r.avg_ATI) && decide (r.avg_ATI ≤ ati_hi))
  if show_anomalies then step2.filter (fun r => r.anomaly_flag == -1) else step2

/-- app.py line 109: `(filtered_data['anomaly_flag'] == -1).sum()` — the
number of rows whose anomaly flag equals `-1`. -/
def anomaly_count (records : List DistrictRecord) : ℕ :=
  records.countP (fun r => r.anomaly_flag == -1)

/-- Insert `x` into `l` immediately before the first element `y` with
`le x y = true`. -/
def orderedInsertBy {α : Type} (le : α → α → Bool) (x : α) : List α → List α
  | [] => [x]
  | y :: ys => if le x y then x :: y :: ys else y :: orderedInsertBy le x ys

/-- Stable insertion sort with respect to `le`. -/
def insertionSortBy {α : Type} (le : α → α → Bool) : List α → List α
  | [] => []
  | x :: xs => orderedInsertBy le x (insertionSortBy le xs)

/-- Stable descending sort by a rational-valued key (the ordering used by
pandas `nlargest(n, column)` with its default `keep='first'`: values
descending, rows with equal values in input order). -/
def sort_desc {α : Type} (key : α → ℚ) (l : List α) : List α :=
  insertionSortBy (fun a b => decide (key b ≤ key a)) l

/-- pandas `DataFrame.nlargest(n, column)` (app.py lines 155 and 199): the
`n` rows with the largest key, descending, stable in the input order. -/
def nlargest {α : Type} (n : ℕ) (key : α → ℚ) (l : List α) : List α :=
  (sort_desc key l).take n

/-- app.py line 155: `filtered_data.nlargest(15, 'avg_ATI')`. -/
def top_districts (fd : List DistrictRecord) : List DistrictRecord :=
  nlargest 15 (fun r => r.avg_ATI) fd

/-- app.py line 199: `filtered_data.nlargest(10, 'total_17_plus')`. -/
def top_demo (fd : List DistrictRecord) : List DistrictRecord :=
  nlargest 10 (fun r => (r.total_17_plus : ℚ)) fd

/-- The value domain of a float64 computation whose finite values are exact
rationals: a finite rational, `+inf`, `-inf`, or NaN. -/
inductive PFloat where
  | finite (x : ℚ)
  | posInf
  | negInf
  | nan
deriving DecidableEq

/-- IEEE-754 division for exactly-representable operands (numpy semantics of
`curr / prev` on float64): the exact quotient when the divisor is nonzero,
`±inf` for a nonzero numerator over zero, NaN for `0 / 0`.  numpy emits a
RuntimeWarning in the zero-divisor cases but raises no exception. -/
def fdiv (a b : ℚ) : PFloat :=
  if b ≠ 0 then PFloat.finite (a / b)
  else if 0 < a then PFloat.posInf
  else if a < 0 then PFloat.negInf
  else PFloat.nan

/-- The affine step `p ↦ (p - 1) * 100` applied to a ratio, in float
semantics: `inf - 1 = inf`, `(-inf) - 1 = -inf`, NaN propagates, and the
positive factor 100 preserves the signed infinities. -/
def pct_scale : PFloat → PFloat
  | PFloat.finite x => PFloat.finite ((x - 1) * 100)
  | PFloat.posInf => PFloat.posInf
  | PFloat.negInf => PFloat.negInf
  | PFloat.nan => PFloat.nan

/-- The tail of `Series.pct_change`'s ratio computation: each element divided
by its predecessor (`prev` is the element before the head of the list). -/
def pct_change_from (prev : ℤ) : List ℤ → List PFloat
  | [] => []
  | curr :: rest => fdiv (curr : ℚ) (prev : ℚ) :: pct_change_from curr rest

/-- The ratio list underlying pandas `Series.pct_change`: NaN for the first
entry (nothing to compare with), then `curr / prev` for each later entry. -/
def shifted_ratios : List ℤ → List PFloat
  | [] => []
  | x :: xs => PFloat.nan :: pct_change_from x xs

/-- app.py lines 323-324: `pct_change() * 100`, i.e. `(curr/prev - 1) * 100`
entrywise, with a NaN first entry. -/
def yoy_growth (totals : List ℤ) : List PFloat :=
  (shifted_ratios totals).map pct_scale

/-- The distinct years of the monthly table in ascending order — the group
keys produced by `groupby('year')` (pandas sorts group keys ascending). -/
def sortedYears (tt : List MonthlyTrendRecord) : List ℤ :=
  insertionSortBy (fun a b => decide (a ≤ b)) ((tt.map (fun r => r.year)).eraseDups)

/-- app.py lines 318-321: per-year sums of `total_5_17`. -/
def yearly_total_5_17 (tt : List MonthlyTrendRecord) : List ℤ :=
  (sortedYears tt).map (fun y => ((tt.filter (fun r => r.year == y)).map (fun r => r.total_5_17)).sum)

/-- app.py lines 318-321: per-year sums of `total_17_plus`. -/
def yearly_total_17_plus (tt : List MonthlyTrendRecord) : List ℤ :=
  (sortedYears tt).map (fun y => ((tt.filter (fun r => r.year == y)).map (fun r => r.total_17_plus)).sum)

/-- app.py line 323: the year-over-year growth column for ages 5-17. -/
def growth_5_17 (tt : List MonthlyTrendRecord) : List PFloat :=
  yoy_growth (yearly_total_5_17 tt)

/-- app.py line 324: the year-over-year growth column for ages 17+. -/
def growth_17_plus (tt : List MonthlyTrendRecord) : List PFloat :=
  yoy_growth (yearly_total_17_plus tt)

/-- The `total_17_plus` column of a monthly table, as real numbers (the
forecast works over float64; its operands here are exact integers). -/
def series_17_plus (tt : List MonthlyTrendRecord) : List ℝ :=
  tt.map (fun r => (r.total_17_plus : ℝ))

/-- The value domain of the float64 forecast computation: a finite real,
`+inf`, `-inf`, or NaN.  The forecast path works over `ℝ` because it takes a
real 12th root. -/
inductive RFloat where
  | finite (x : ℝ)
  | posInf
  | negInf
  | nan

/-- IEEE-754 division of two finite float64 operands (the numpy semantics of
`iloc[-1] / iloc[0]`): the exact quotient when the divisor is nonzero,
`±inf` for a nonzero numerator over zero, NaN for `0 / 0`; numpy emits a
RuntimeWarning in the zero-divisor cases but raises no exception. -/
noncomputable def rfdiv (a b : ℝ) : RFloat :=
  if b ≠ 0 then RFloat.finite (a / b)
  else if 0 < a then RFloat.posInf
  else if a < 0 then RFloat.negInf
  else RFloat.nan

/-- IEEE-754 `x ** (1/12)` on float64 (numpy semantics): a non-negative
finite base maps to its real 12th root, a negative finite base to NaN (the
exponent is not an integer), `+inf` to `+inf`, `-inf` to `+inf` (IEEE `pow`
at a positive non-odd-integer exponent), NaN propagates. -/
noncomputable def RFloat.pow12 : RFloat → RFloat
  | RFloat.finite x => if 0 ≤ x then RFloat.finite (x ^ ((1 : ℝ) / 12)) else RFloat.nan
  | RFloat.posInf => RFloat.posInf
  | RFloat.negInf => RFloat.posInf
  | RFloat.nan => RFloat.nan

/-- IEEE-754 `x - 1`: infinities and NaN are preserved. -/
noncomputable def RFloat.subOne : RFloat → RFloat
  | RFloat.finite x => RFloat.finite (x - 1)
  | RFloat.posInf => RFloat.posInf
  | RFloat.negInf => RFloat.negInf
  | RFloat.nan => RFloat.nan

/-- IEEE-754 `1 + x`: infinities and NaN are preserved. -/
noncomputable def RFloat.addOne : RFloat → RFloat
  | RFloat.finite x => RFloat.finite (1 + x)
  | RFloat.posInf => RFloat.posInf
  | RFloat.negInf => RFloat.negInf
  | RFloat.nan => RFloat.nan

/-- IEEE-754 `x ** i` for a Python integer exponent `i ≥ 0`: finite bases
take the real power, `pow(x, 0) = 1` for every `x` (NaN included), positive
exponents preserve `+inf`, follow parity on `-inf`, and propagate NaN. -/
noncomputable def RFloat.powNat : RFloat → ℕ → RFloat
  | RFloat.finite x, i => RFloat.finite (x ^ i)
  | RFloat.posInf, i => if i = 0 then RFloat.finite 1 else RFloat.posInf
  | RFloat.negInf, i =>
      if i = 0 then RFloat.finite 1
      else if i % 2 = 0 then RFloat.posInf else RFloat.negInf
  | RFloat.nan, i => if i = 0 then RFloat.finite 1 else RFloat.nan

/-- IEEE-754 multiplication of the finite float `c` by a possibly
non-finite float (the step `last_value * (1 + avg_growth) ** i`): zero times
an infinity is NaN, otherwise the sign of `c` orients the infinity; NaN
propagates. -/
noncomputable def RFloat.mulFin (c : ℝ) : RFloat → RFloat
  | RFloat.finite x => RFloat.finite (c * x)
  | RFloat.posInf => if 0 < c then RFloat.posInf else if c < 0 then RFloat.negInf else RFloat.nan
  | RFloat.negInf => if 0 < c then RFloat.negInf else if c < 0 then RFloat.posInf else RFloat.nan
  | RFloat.nan => RFloat.nan

/-- app.py line 374:
`(last_12_months[...].iloc[-1] / last_12_months[...].iloc[0]) ** (1/12) - 1`.
`none` models the `IndexError` that `iloc[-1]` / `iloc[0]` raise on an empty
window; otherwise the division, the constant `** (1/12)` power (its exponent
independent of the window length) and the `- 1` follow the float64 semantics
of `rfdiv`, `RFloat.pow12` and `RFloat.subOne`. -/
noncomputable def avg_growth (values : List ℝ) : Option RFloat :=
  match values.getLast?, values.head? with
  | some last, some first => some (((rfdiv last first).pow12).subOne)
  | _, _ => none

/-- app.py lines 373-381: trailing window `tail(12)` (all rows when the
history is shorter), growth multiplier `avg_growth` of that window, and
forecast values `last_value * (1 + avg_growth) ** i` for
`i = 1 .. future_months`.  `none` models the `IndexError` on an empty
history (the window indexing at line 374 and `iloc[-1]` at line 380 both
fail there); the values follow IEEE float64 semantics, so a non-finite
growth multiplier propagates into the forecast instead of raising. -/
noncomputable def forecast_values (time_trends : List MonthlyTrendRecord)
    (future_months : ℕ) : Option (List RFloat) :=
  let last_12_months := time_trends.drop (time_trends.length - 12)
  match avg_growth (series_17_plus last_12_months), (series_17_plus time_trends).getLast? with
  | some g, some last_value =>
      some ((List.range future_months).map
        (fun i => RFloat.mulFin last_value ((g.addOne).powNat (i + 1))))
  | _, _ => none

/-- app.py line 376: the script always forecasts 6 months ahead. -/
def future_months : ℕ := 6

/-- app.py line 378: `pd.date_range(start=last_date + 1 month, periods=n,
freq='MS')`, with first-of-month dates represented by a linear month index
(year * 12 + month): the `n` consecutive months after `last_date`. -/
def future_dates (last_date : ℤ) (n : ℕ) : List ℤ :=
  (List.range n).map (fun i : ℕ => last_date + (i : ℤ) + 1)

/-- The explicit error condition the specification postulates for the
forecast. -/
inductive ForecastError where
  | invalidForecastInput
deriving DecidableEq

/-- Refinement twin following the specification's words, NOT the source:
`ForecastLinearGrowth` fails with `InvalidForecastInput` when the history has
fewer than 2 points or the trailing window's first value is non-positive, and
otherwise forecasts with `g = (last/first) ^ (1 / (windowLength - 1)) - 1`.
It exists only to be compared with the source-derived `forecast_values`. -/
noncomputable def ForecastLinearGrowth_spec (tt : List MonthlyTrendRecord) (horizonMonths : ℕ) :
    Except ForecastError (List ℝ) :=
  if tt.length < 2 then Except.error ForecastError.invalidForecastInput
  else
    let window := tt.drop (tt.length - 12)
    let firstValue := (series_17_plus window).head?.getD 0
    let lastValue := (series_17_plus window).getLast?.getD 0
    if firstValue ≤ 0 then Except.error ForecastError.invalidForecastInput
    else
      let g := (lastValue / firstValue) ^ ((1 : ℝ) / ((window.length : ℝ) - 1)) - 1
      Except.ok ((List.range horizonMonths).map (fun k => lastValue * (1 + g) ^ (k + 1)))

/-- app.py line 526: `projected = baseline * (1 + growth_rate/100)`. -/
def projected (baseline growth_rate : ℚ) : ℚ :=
  baseline * (1 + growth_rate / 100)

/-- app.py line 527: `impact = projected - baseline`. -/
def impact (baseline growth_rate : ℚ) : ℚ :=
  projected baseline growth_rate - baseline

/-- app.py line 528: `(budget_allocation * 10000000) / impact if impact > 0
else 0` (the budget is entered in crores; one crore = 10^7 rupees). -/
def cost_per_update (baseline growth_rate budget_allocation : ℚ) : ℚ :=
  if 0 < impact baseline growth_rate then
    budget_allocation * 10000000 / impact baseline growth_rate
  else 0

/-- app.py line 535: `avg_value_per_update = 500` (a hard-coded constant). -/
def avg_value_per_update : ℚ := 500

/-- app.py line 536:
`roi = ((impact * avg_value_per_update) / (budget_allocation * 10000000)) * 100`.
The division is performed unconditionally; there is no zero-budget check in
the source (numpy would produce a non-finite float at a zero denominator). -/
def roi (baseline growth_rate budget_allocation : ℚ) : ℚ :=
  impact baseline growth_rate * avg_value_per_update / (budget_allocation * 10000000) * 100

/-- The four scenario metrics displayed by the scenario planner tab. -/
structure ScenarioResult where
  projected : ℚ
  impact : ℚ
  costPerUpdate : ℚ
  roiPct : ℚ
deriving DecidableEq

/-- app.py lines 526-537 bundled: the scenario metrics as the script computes
them, with no error path of any kind. -/
def scenario_code (baseline growth_rate budget_allocation : ℚ) : ScenarioResult :=
  { projected := projected baseline growth_rate
    impact := impact baseline growth_rate
    costPerUpdate := cost_per_update baseline growth_rate budget_allocation
    roiPct := roi baseline growth_rate budget_allocation }

/-- The explicit error condition the specification postulates for the
scenario projection. -/
inductive ScenarioError where
  | invalidScenarioInput
deriving DecidableEq

/-- Refinement twin following the specification's words, NOT the source:
`ScenarioProjection` fails with `InvalidScenarioInput` when `budgetCurrency`
is zero and otherwise returns the four metrics (with `budgetCurrency` the
budget in currency units, i.e. `budget_allocation * 10^7`). -/
def ScenarioProjection_spec (baseline growthRatePct budgetCurrency valuePerUpdate : ℚ) :
    Except ScenarioError ScenarioResult :=
  if budgetCurrency = 0 then Except.error ScenarioError.invalidScenarioInput
  else
    let p := baseline * (1 + growthRatePct / 100)
    let imp := p - baseline
    Except.ok
      { projected := p
        impact := imp
        costPerUpdate := if 0 < imp then budgetCurrency / imp else 0
        roiPct := imp * valuePerUpdate / budgetCurrency * 100 }

/-- The two tables loaded once per session (app.py lines 40-57). -/
structure Tables where
  district_profile : List DistrictRecord
  time_trends : List MonthlyTrendRecord

/-- The user-chosen widget values feeding the derived computations. -/
structure DashboardParams where
  selected_states : List String
  ati_lo : ℚ
  ati_hi : ℚ
  show_anomalies : Bool
  growth_rate : ℚ
  budget_allocation : ℚ
  target_states : List String

/-- The derived values the dashboard computes from the tables. -/
structure DashboardOutputs where
  filtered : List DistrictRecord
  total_5_17 : ℤ
  total_17_plus : ℤ
  anomaly_districts : ℕ
  top_by_ATI : List DistrictRecord
  top_by_17_plus : List DistrictRecord
  growth5 : List PFloat
  growth17 : List PFloat
  forecast : Option (List RFloat)
  scenario : ScenarioResult

/-- One full pass of the dashboard's derived computations (app.py lines
87-109, 155, 199, 318-324, 373-381, 514-537), threading the loaded tables
through explicitly.  Every pandas operation in those lines returns a fresh
object (`copy()`, boolean-mask selection, `groupby(...).agg(...)` with
`reset_index`, `nlargest`, `tail`, `pct_change` applied to a derived frame,
a Python list comprehension, scalar arithmetic); none of them assigns into
`district_profile` or `time_trends`, so the tables component of the result
is the input tables. -/
noncomputable def run_dashboard (t : Tables) (p : DashboardParams) : Tables × DashboardOutputs :=
  let fd := filtered_data t.district_profile p.selected_states p.ati_lo p.ati_hi p.show_anomalies
  let target_data := t.district_profile.filter (fun r => p.target_states.contains r.state)
  let baseline := (((target_data.map (fun r => r.total_17_plus)).sum : ℤ) : ℚ)
  (t,
    { filtered := fd
      total_5_17 := (fd.map (fun r => r.total_5_17)).sum
      total_17_plus := (fd.map (fun r => r.total_17_plus)).sum
      anomaly_districts := anomaly_count fd
      top_by_ATI := top_districts fd
      top_by_17_plus := top_demo fd
      growth5 := growth_5_17 t.time_trends
      growth17 := growth_17_plus t.time_trends
      forecast := forecast_values t.time_trends future_months
      scenario := scenario_code baseline p.growth_rate p.budget_allocation })

/-- A 12-month history whose 17+ column runs from 100 to 200 (the trailing
window of the specification's forecast example). -/
def histC1 : List MonthlyTrendRecord :=
  [⟨2023, 1, 0, 100⟩, ⟨2023, 2, 0, 150⟩, ⟨2023, 3, 0, 150⟩, ⟨2023, 4, 0, 150⟩,
   ⟨2023, 5, 0, 150⟩, ⟨2023, 6, 0, 150⟩, ⟨2023, 7, 0, 150⟩, ⟨2023, 8, 0, 150⟩,
   ⟨2023, 9, 0, 150⟩, ⟨2023, 10, 0, 150⟩, ⟨2023, 11, 0, 150⟩, ⟨2023, 12, 0, 200⟩]

/-- A one-record history (fewer than 2 points). -/
def histC2 : List MonthlyTrendRecord :=
  [⟨2024, 1, 0, 100⟩]

/-- Monthly rows spanning three years whose 5-17 yearly sums are
100, 150, 120 (the specification's year-over-year example, with the sums
split across months to exercise the grouping). -/
def trendC6 : List MonthlyTrendRecord :=
  [⟨2020, 1, 60, 10⟩, ⟨2020, 2, 40, 20⟩, ⟨2021, 1, 150, 30⟩, ⟨2022, 1, 70, 40⟩, ⟨2022, 2, 50, 0⟩]

/-- Monthly rows whose 5-17 yearly sums are 0 then 150: a zero
previous-year total followed by a positive year. -/
def trendC4 : List MonthlyTrendRecord :=
  [⟨2020, 1, 0, 0⟩, ⟨2021, 1, 150, 0⟩]

/-- District rows with ATI values 1, 5, 3 (the specification's TopN
example). -/
def dATI1 : DistrictRecord := ⟨"S1", "d1", 0, 0, 1, 1⟩

def dATI5 : DistrictRecord := ⟨"S1", "d2", 0, 0, 5, 1⟩

def dATI3 : DistrictRecord := ⟨"S1", "d3", 0, 0, 3, 1⟩

/-- A district row with `anomaly_flag = 1` (the normal flag). -/
def dNormal : DistrictRecord := ⟨"S1", "n1", 2, 3, 1, 1⟩

/-- A district row used to exercise the filter on a concrete input. -/
def dC7 : DistrictRecord := ⟨"S2", "d7", 4, 9, 1, -1⟩

/-!
## Helper lemmas

Generic facts about the embedded list operations, shared by the claim
theorems below.
-/

theorem contains_iff_mem (l : List String) (s : String) : l.contains s = true ↔ s ∈ l :=
  List.elem_iff

/-- Membership in the filtered table, unfolded to the conjunction of the
three predicates of app.py lines 87-98. -/
theorem mem_filtered_iff (rs : List DistrictRecord) (sel : List String) (lo hi : ℚ)
    (anom : Bool) (r : DistrictRecord) :
    r ∈ filtered_data rs sel lo hi anom ↔
      r ∈ rs ∧ ("All States" ∈ sel ∨ r.state ∈ sel) ∧ lo ≤ r.avg_ATI ∧ r.avg_ATI ≤ hi ∧
        (anom = true → r.anomaly_flag = -1) := by
  rw [filtered_data]
  by_cases hall : "All States" ∈ sel
  · by_cases ha : anom
    · subst ha
      simp only [if_pos hall, if_true, List.mem_filter, Bool.and_eq_true, decide_eq_true_eq,
        beq_iff_eq]
      tauto
    · simp only [Bool.not_eq_true] at ha
      subst ha
      simp only [if_pos hall, Bool.false_eq_true, if_false, List.mem_filter, Bool.and_eq_true,
        decide_eq_true_eq]
      tauto
  · by_cases ha : anom
    · subst ha
      simp only [if_neg hall, if_true, List.mem_filter, Bool.and_eq_true, decide_eq_true_eq,
        beq_iff_eq, contains_iff_mem]
      tauto
    · simp only [Bool.not_eq_true] at ha
      subst ha
      simp only [if_neg hall, Bool.false_eq_true, if_false, List.mem_filter, Bool.and_eq_true,
        decide_eq_true_eq, contains_iff_mem]
      tauto

theorem filtered_sublist (rs : List DistrictRecord) (sel : List String) (lo hi : ℚ)
    (anom : Bool) : (filtered_data rs sel lo hi anom).Sublist rs := by
  rw [filtered_data]
  by_cases hall : "All States" ∈ sel
  · simp only [if_pos hall]
    by_cases ha : anom
    · simp only [if_pos ha]
      exact (List.filter_sublist _).trans (List.filter_sublist _)
    · simp only [if_neg ha]
      exact List.filter_sublist _
  · simp only [if_neg hall]
    by_cases ha : anom
    · simp only [if_pos ha]
      exact ((List.filter_sublist _).trans (List.filter_sublist _)).trans (List.filter_sublist _)
    · simp only [if_neg ha]
      exact (List.filter_sublist _).trans (List.filter_sublist _)

theorem perm_orderedInsertBy {α : Type} (le : α → α → Bool) (x : α) (l : List α) :
    (orderedInsertBy le x l).Perm (x :: l) := by
  induction l with
  | nil => rfl
  | cons y ys ih =>
    rw [orderedInsertBy]
    by_cases h : le x y
    · rw [if_pos h]
    · rw [if_neg h]
      exact (ih.cons y).trans (List.Perm.swap x y ys)

theorem perm_insertionSortBy {α : Type} (le : α → α → Bool) (l : List α) :
    (insertionSortBy le l).Perm l := by
  induction l with
  | nil => rfl
  | cons x xs ih =>
    rw [insertionSortBy]
    exact (perm_orderedInsertBy le x (insertionSortBy le xs)).trans (ih.cons x)

theorem pairwise_orderedInsertBy {α : Type} (key : α → ℚ) (x : α) (l : List α)
    (h : l.Pairwise (fun a b => key b ≤ key a)) :
    (orderedInsertBy (fun a b => decide (key b ≤ key a)) x l).Pairwise
      (fun a b => key b ≤ key a) := by
  induction l with
  | nil => simp [orderedInsertBy]
  | cons y ys ih =>
    rw [orderedInsertBy]
    rcases List.pairwise_cons.mp h with ⟨hy, hys⟩
    by_cases hxy : key y ≤ key x
    · rw [if_pos (by simpa using hxy)]
      refine List.pairwise_cons.mpr ⟨?_, h⟩
      intro b hb
      rcases List.mem_cons.mp hb with rfl | hb
      · exact hxy
      · exact (hy b hb).trans hxy
    · rw [if_neg (by simpa using hxy)]
      push_neg at hxy
      refine List.pairwise_cons.mpr ⟨?_, ih hys⟩
      intro b hb
      have hb' := (perm_orderedInsertBy (fun a b => decide (key b ≤ key a)) x ys).mem_iff.mp hb
      rcases List.mem_cons.mp hb' with rfl | hb'
      · exact le_of_lt hxy
      · exact hy b hb'

theorem pairwise_sort_desc {α : Type} (key : α → ℚ) (l : List α) :
    (sort_desc key l).Pairwise (fun a b => key b ≤ key a) := by
  induction l with
  | nil => simp [sort_desc, insertionSortBy]
  | cons x xs ih =>
    rw [sort_desc, insertionSortBy]
    exact pairwise_orderedInsertBy key x _ ih

/-- Inserting `x` never disturbs the relative order of the rows with any
fixed key value `c`: the elements placed before `x` all have a key strictly
greater than `key x`, so among rows with key `c` the inserted row comes
first exactly when its key equals `c`. -/
theorem filter_orderedInsertBy {α : Type} (key : α → ℚ) (x : α) (c : ℚ) (l : List α) :
    (orderedInsertBy (fun a b => decide (key b ≤ key a)) x l).filter (fun r => decide (key r = c)) =
      if key x = c then x :: l.filter (fun r => decide (key r = c))
      else l.filter (fun r => decide (key r = c)) := by
  induction l with
  | nil =>
    by_cases h : key x = c <;> simp [orderedInsertBy, List.filter, h]
  | cons y ys ih =>
    rw [orderedInsertBy]
    by_cases hxy : key y ≤ key x
    · rw [if_pos (by simpa using hxy)]
      by_cases h : key x = c <;> simp [List.filter_cons, h]
    · rw [if_neg (by simpa using hxy)]
      push_neg at hxy
      by_cases h : key x = c
      · rw [if_pos h]
        have hy : ¬ key y = c := by
          intro hyc
          exact absurd (hyc.trans h.symm) (ne_of_gt hxy)
        simp only [List.filter_cons, decide_eq_true_eq, if_neg hy, hy, ih, if_pos h]
        simp [hy]
      · rw [if_neg h]
        simp only [List.filter_cons, ih, if_neg h]

/-- Stability of the sort: the subsequence of rows with any fixed key value
is unchanged. -/
theorem filter_sort_desc {α : Type} (key : α → ℚ) (c : ℚ) (l : List α) :
    (sort_desc key l).filter (fun r => decide (key r = c)) =
      l.filter (fun r => decide (key r = c)) := by
  induction l with
  | nil => rfl
  | cons x xs ih =>
    rw [sort_desc, insertionSortBy, filter_orderedInsertBy]
    by_cases h : key x = c
    · rw [if_pos h]
      rw [sort_desc] at ih
      simp [List.filter_cons, h, ih]
    · rw [if_neg h]
      rw [sort_desc] at ih
      simp [List.filter_cons, h, ih]

theorem take_filter_comm_exists {α : Type} (p : α → Bool) (l : List α) (n : ℕ) :
    ∃ m, (l.filter p).take m = (l.take n).filter p := by
  induction l generalizing n with
  | nil => exact ⟨0, by simp⟩
  | cons x xs ih =>
    cases n with
    | zero => exact ⟨0, by simp⟩
    | succ n =>
      rcases ih n with ⟨m, hm⟩
      by_cases h : p x
      · exact ⟨m + 1, by simp [List.filter_cons, h, List.take_succ_cons, hm]⟩
      · exact ⟨m, by simp [List.filter_cons, h, List.take_succ_cons, hm]⟩

theorem pct_change_from_getElem (l : List ℤ) (p : ℤ) (i : ℕ) (curr prev : ℤ)
    (hc : l[i]? = some curr) (hp : (p :: l)[i]? = some prev) :
    (pct_change_from p l)[i]? = some (fdiv (curr : ℚ) (prev : ℚ)) := by
  induction l generalizing p i with
  | nil => simp at hc
  | cons c rest ih =>
    cases i with
    | zero =>
      simp only [List.getElem?_cons_zero, Option.some_inj] at hc hp
      subst hc
      subst hp
      simp [pct_change_from]
    | succ j =>
      simp only [List.getElem?_cons_succ] at hc hp
      simp only [pct_change_from, List.getElem?_cons_succ]
      exact ih c j hc hp

theorem yoy_length (l : List ℤ) : (yoy_growth l).length = l.length := by
  have h : ∀ p m, (pct_change_from p m).length = m.length := by
    intro p m
    induction m generalizing p with
    | nil => rfl
    | cons c rest ih => simp [pct_change_from, ih]
  cases l with
  | nil => rfl
  | cons x xs => simp [yoy_growth, shifted_ratios, h]

theorem yoy_head (l : List ℤ) (h : l ≠ []) : (yoy_growth l).head? = some PFloat.nan := by
  cases l with
  | nil => exact absurd rfl h
  | cons x xs => rfl

theorem yoy_growth_getElem (l : List ℤ) (i : ℕ) (curr prev : ℤ)
    (hp : l[i]? = some prev) (hc : l[i + 1]? = some curr) (h0 : prev ≠ 0) :
    (yoy_growth l)[i + 1]? =
      some (PFloat.finite (((curr : ℚ) - (prev : ℚ)) / (prev : ℚ) * 100)) := by
  cases l with
  | nil => simp at hp
  | cons x xs =>
    have hfrom : (pct_change_from x xs)[i]? = some (fdiv (curr : ℚ) (prev : ℚ)) := by
      apply pct_change_from_getElem xs x i curr prev
      · simpa using hc
      · exact hp
    have hq : (prev : ℚ) ≠ 0 := Int.cast_ne_zero.mpr h0
    have hidx : (yoy_growth (x :: xs))[i + 1]? = ((pct_change_from x xs)[i]?).map pct_scale := by
      simp [yoy_growth, shifted_ratios, List.getElem?_map]
    rw [hidx, hfrom]
    simp only [Option.map_some, Option.map_some', fdiv, if_pos hq]
    have hps : pct_scale (PFloat.finite ((curr : ℚ) / (prev : ℚ))) =
        PFloat.finite (((curr : ℚ) / (prev : ℚ) - 1) * 100) := rfl
    rw [hps]
    congr 2
    field_simp

theorem series_ne_nil (tt : List MonthlyTrendRecord) (h : tt ≠ []) :
    series_17_plus tt ≠ [] := by
  cases tt with
  | nil => exact absurd rfl h
  | cons x xs => exact fun hx => List.noConfusion hx

theorem getLast?_isSome_of_ne_nil {α : Type} (l : List α) (h : l ≠ []) :
    ∃ a, l.getLast? = some a := by
  cases hx : l.getLast? with
  | none => exact absurd (List.getLast?_eq_none_iff.mp hx) h
  | some a => exact ⟨a, rfl⟩

theorem head?_isSome_of_ne_nil {α : Type} (l : List α) (h : l ≠ []) :
    ∃ a, l.head? = some a := by
  cases l with
  | nil => exact absurd rfl h
  | cons x xs => exact ⟨x, rfl⟩

/-!
## Claim theorems
-/

/-- C1 (counterexample): on the 12-point window with first value 100 and
last value 200 and a 1-month horizon, the source computes the first forecast
value `200 * 2 ^ (1/12)` (which is below 212), while the claim's formula
`g = (last/first) ^ (1/(windowLength-1)) - 1` — realised by the
spec-following `ForecastLinearGrowth_spec` — yields `200 * 2 ^ (1/11)`
(approximately 212.98); the two values differ. -/
theorem forecast_example_contradicts_claimed_growth :
    forecast_values histC1 1 = some [RFloat.finite (200 * (2 : ℝ) ^ ((1 : ℝ) / 12))]
    ∧ ForecastLinearGrowth_spec histC1 1 = Except.ok [200 * (2 : ℝ) ^ ((1 : ℝ) / 11)]
    ∧ 200 * (2 : ℝ) ^ ((1 : ℝ) / 12) ≠ 200 * (2 : ℝ) ^ ((1 : ℝ) / 11)
    ∧ 200 * (2 : ℝ) ^ ((1 : ℝ) / 12) < 212 := by
  refine ⟨?_, ?_, ?_, ?_⟩
  · have hg : avg_growth (series_17_plus (histC1.drop (histC1.length - 12))) =
        some (RFloat.finite ((2 : ℝ) ^ ((1 : ℝ) / 12) - 1)) := by
      show some (((rfdiv ((200 : ℤ) : ℝ) ((100 : ℤ) : ℝ)).pow12).subOne) = _
      rw [rfdiv, if_pos (by norm_num : ((100 : ℤ) : ℝ) ≠ 0)]
      have hd : ((200 : ℤ) : ℝ) / ((100 : ℤ) : ℝ) = 2 := by norm_num
      rw [hd, RFloat.pow12, if_pos (by norm_num : (0 : ℝ) ≤ 2)]
      rfl
    have hm : forecast_values histC1 1 =
        match avg_growth (series_17_plus (histC1.drop (histC1.length - 12))),
            (series_17_plus histC1).getLast? with
        | some g, some last_value =>
            some ((List.range 1).map
              (fun i => RFloat.mulFin last_value ((g.addOne).powNat (i + 1))))
        | _, _ => none := rfl
    rw [hm, hg]
    show some [RFloat.mulFin ((200 : ℤ) : ℝ)
        (((RFloat.finite ((2 : ℝ) ^ ((1 : ℝ) / 12) - 1)).addOne).powNat 1)] = _
    rw [RFloat.addOne, RFloat.powNat, RFloat.mulFin]
    norm_num
  · rw [ForecastLinearGrowth_spec]
    simp only [histC1, series_17_plus, List.map, List.length, List.drop, List.getLast?,
      List.getLast, List.head?, Option.getD, List.range, List.range.loop]
    norm_num
  · have h : (2 : ℝ) ^ ((1 : ℝ) / 12) < (2 : ℝ) ^ ((1 : ℝ) / 11) :=
      Real.rpow_lt_rpow_of_exponent_lt (by norm_num) (by norm_num)
    intro hc
    exact absurd (mul_left_cancel₀ (show (200 : ℝ) ≠ 0 by norm_num) hc) (ne_of_lt h)
  · have hpow : ((2 : ℝ) ^ ((1 : ℝ) / 12)) ^ (12 : ℕ) = 2 := by
      rw [← Real.rpow_natCast ((2 : ℝ) ^ ((1 : ℝ) / 12)) 12, ← Real.rpow_mul (by norm_num)]
      norm_num
    have h106 : (2 : ℝ) ^ ((1 : ℝ) / 12) < 106 / 100 := by
      by_contra hle
      push_neg at hle
      have h2 : ((106 : ℝ) / 100) ^ (12 : ℕ) ≤ ((2 : ℝ) ^ ((1 : ℝ) / 12)) ^ (12 : ℕ) :=
        pow_le_pow_left₀ (by norm_num) hle 12
      rw [hpow] at h2
      norm_num at h2
    nlinarith [h106]

/-- C1 (amended): for every history of at least 2 records whose trailing
12-record window has a positive first value and a non-negative last value
(the totals of the data model are counts), the forecast computes the growth
multiplier `g = (lastValue / firstValue) ^ (1/12) - 1` — with the constant
exponent `1/12` independent of the window length, not
`1/(windowLength - 1)` — and returns, for `k = 1..horizonMonths`, the finite
values `lastValue * (1 + g) ^ k`, dated at the consecutive months after the
last historical date; on the 100→200 example the first forecast value is
`200 * 2 ^ (1/12) ≈ 211.89`, strictly between 211 and 212. -/
theorem forecast_values_fixed_exponent :
    (∀ (tt : List MonthlyTrendRecord) (n : ℕ) (first last lastV : ℝ),
        2 ≤ tt.length →
        (series_17_plus (tt.drop (tt.length - 12))).head? = some first →
        (series_17_plus (tt.drop (tt.length - 12))).getLast? = some last →
        (series_17_plus tt).getLast? = some lastV →
        0 < first → 0 ≤ last →
        forecast_values tt n =
          some ((List.range n).map (fun k =>
            RFloat.finite (lastV * (1 + ((last / first) ^ ((1 : ℝ) / 12) - 1)) ^ (k + 1)))))
    ∧ (∀ (d : ℤ) (n : ℕ), (future_dates d n).length = n)
    ∧ (∀ (d : ℤ) (n k : ℕ), k < n → (future_dates d n)[k]? = some (d + (k : ℤ) + 1))
    ∧ forecast_values histC1 1 = some [RFloat.finite (200 * (2 : ℝ) ^ ((1 : ℝ) / 12))]
    ∧ 211 < 200 * (2 : ℝ) ^ ((1 : ℝ) / 12)
    ∧ 200 * (2 : ℝ) ^ ((1 : ℝ) / 12) < 212 := by
  refine ⟨?_, ?_, ?_, ?_, ?_, ?_⟩
  · intro tt n first last lastV _ hfirst hlast hlastV hpos hnn
    have hg : avg_growth (series_17_plus (tt.drop (tt.length - 12))) =
        some (RFloat.finite ((last / first) ^ ((1 : ℝ) / 12) - 1)) := by
      rw [avg_growth, hlast, hfirst]
      show some (((rfdiv last first).pow12).subOne) = _
      rw [rfdiv, if_pos (ne_of_gt hpos), RFloat.pow12,
        if_pos (div_nonneg hnn (le_of_lt hpos))]
      rfl
    have hm : forecast_values tt n =
        match avg_growth (series_17_plus (tt.drop (tt.length - 12))),
            (series_17_plus tt).getLast? with
        | some g, some last_value =>
            some ((List.range n).map
              (fun i => RFloat.mulFin last_value ((g.addOne).powNat (i + 1))))
        | _, _ => none := rfl
    rw [hm, hg, hlastV]
    show some ((List.range n).map (fun i => RFloat.mulFin lastV
        (((RFloat.finite ((last / first) ^ ((1 : ℝ) / 12) - 1)).addOne).powNat (i + 1)))) = _
    simp only [RFloat.addOne, RFloat.powNat, RFloat.mulFin]
  · intro d n
    rw [future_dates, List.length_map, List.length_range]
  · intro d n k hk
    rw [future_dates]
    simp only [List.getElem?_map, List.getElem?_range, hk, if_pos, Option.map_some,
      Option.map_some']
  · have hg : avg_growth (series_17_plus (histC1.drop (histC1.length - 12))) =
        some (RFloat.finite ((2 : ℝ) ^ ((1 : ℝ) / 12) - 1)) := by
      show some (((rfdiv ((200 : ℤ) : ℝ) ((100 : ℤ) : ℝ)).pow12).subOne) = _
      rw [rfdiv, if_pos (by norm_num : ((100 : ℤ) : ℝ) ≠ 0)]
      have hd : ((200 : ℤ) : ℝ) / ((100 : ℤ) : ℝ) = 2 := by norm_num
      rw [hd, RFloat.pow12, if_pos (by norm_num : (0 : ℝ) ≤ 2)]
      rfl
    have hm : forecast_values histC1 1 =
        match avg_growth (series_17_plus (histC1.drop (histC1.length - 12))),
            (series_17_plus histC1).getLast? with
        | some g, some last_value =>
            some ((List.range 1).map
              (fun i => RFloat.mulFin last_value ((g.addOne).powNat (i + 1))))
        | _, _ => none := rfl
    rw [hm, hg]
    show some [RFloat.mulFin ((200 : ℤ) : ℝ)
        (((RFloat.finite ((2 : ℝ) ^ ((1 : ℝ) / 12) - 1)).addOne).powNat 1)] = _
    rw [RFloat.addOne, RFloat.powNat, RFloat.mulFin]
    norm_num
  · have hpow : ((2 : ℝ) ^ ((1 : ℝ) / 12)) ^ (12 : ℕ) = 2 := by
      rw [← Real.rpow_natCast ((2 : ℝ) ^ ((1 : ℝ) / 12)) 12, ← Real.rpow_mul (by norm_num)]
      norm_num
    have h1055 : (1055 : ℝ) / 1000 < (2 : ℝ) ^ ((1 : ℝ) / 12) := by
      by_contra hle
      push_neg at hle
      have h2 : ((2 : ℝ) ^ ((1 : ℝ) / 12)) ^ (12 : ℕ) ≤ ((1055 : ℝ) / 1000) ^ (12 : ℕ) :=
        pow_le_pow_left₀ (Real.rpow_nonneg (by norm_num) _) hle 12
      rw [hpow] at h2
      norm_num at h2
    nlinarith [h1055]
  · have hpow : ((2 : ℝ) ^ ((1 : ℝ) / 12)) ^ (12 : ℕ) = 2 := by
      rw [← Real.rpow_natCast ((2 : ℝ) ^ ((1 : ℝ) / 12)) 12, ← Real.rpow_mul (by norm_num)]
      norm_num
    have h106 : (2 : ℝ) ^ ((1 : ℝ) / 12) < 106 / 100 := by
      by_contra hle
      push_neg at hle
      have h2 : ((106 : ℝ) / 100) ^ (12 : ℕ) ≤ ((2 : ℝ) ^ ((1 : ℝ) / 12)) ^ (12 : ℕ) :=
        pow_le_pow_left₀ (by norm_num) hle 12
      rw [hpow] at h2
      norm_num at h2
    nlinarith [h106]

/-- C1 (witness): the main growth formula applied to the concrete 12-record
history `histC1` (first window value 100, last value 200) with a 2-month
horizon, discharging every hypothesis. -/
theorem forecast_values_fixed_exponent_witness :
    forecast_values histC1 2 =
      some ((List.range 2).map (fun k =>
        RFloat.finite (((200 : ℤ) : ℝ) *
          (1 + ((((200 : ℤ) : ℝ) / ((100 : ℤ) : ℝ)) ^ ((1 : ℝ) / 12) - 1)) ^ (k + 1)))) :=
  forecast_values_fixed_exponent.1 histC1 2 ((100 : ℤ) : ℝ) ((200 : ℤ) : ℝ) ((200 : ℤ) : ℝ)
    (by decide) rfl rfl rfl (by norm_num) (by norm_num)

/-- C2 (counterexample): on a one-record history — fewer than the 2 points
the claim requires for success — the source forecast raises nothing and
returns the value 100 for the single requested month, whereas the
spec-following `ForecastLinearGrowth_spec` fails with
`InvalidForecastInput`. -/
theorem forecast_single_point_returns_value :
    forecast_values histC2 1 = some [RFloat.finite (100 : ℝ)]
    ∧ ForecastLinearGrowth_spec histC2 1 = Except.error ForecastError.invalidForecastInput := by
  constructor
  · have hg : avg_growth (series_17_plus (histC2.drop (histC2.length - 12))) =
        some (RFloat.finite 0) := by
      show some (((rfdiv ((100 : ℤ) : ℝ) ((100 : ℤ) : ℝ)).pow12).subOne) = _
      rw [rfdiv, if_pos (by norm_num : ((100 : ℤ) : ℝ) ≠ 0)]
      have hd : ((100 : ℤ) : ℝ) / ((100 : ℤ) : ℝ) = 1 := by norm_num
      rw [hd, RFloat.pow12, if_pos (by norm_num : (0 : ℝ) ≤ 1), Real.one_rpow]
      show some (RFloat.finite ((1 : ℝ) - 1)) = _
      norm_num
    have hm : forecast_values histC2 1 =
        match avg_growth (series_17_plus (histC2.drop (histC2.length - 12))),
            (series_17_plus histC2).getLast? with
        | some g, some last_value =>
            some ((List.range 1).map
              (fun i => RFloat.mulFin last_value ((g.addOne).powNat (i + 1))))
        | _, _ => none := rfl
    rw [hm, hg]
    show some [RFloat.mulFin ((100 : ℤ) : ℝ) (((RFloat.finite 0).addOne).powNat 1)] = _
    rw [RFloat.addOne, RFloat.powNat, RFloat.mulFin]
    norm_num
  · rw [ForecastLinearGrowth_spec]
    norm_num [histC2]

/-- C2 (amended): the source forecast performs no input validation and
signals no `InvalidForecastInput`: on the empty history it crashes with an
IndexError at `iloc` (modelled as `none`), on every nonempty history — in
particular on a one-point history — it returns exactly `horizonMonths`
float values; a one-point history `[v]` with `v ≠ 0` yields the value `v`
at every step (the growth multiplier degenerates to `(v/v)^(1/12) - 1 = 0`),
a one-point history `[0]` divides `0/0` and propagates NaN into every
forecast value, and a zero window first value with a positive last value
propagates `+inf` into every forecast value — numpy's non-finite floats,
never an explicit error. -/
theorem forecast_no_input_validation :
    (∀ n : ℕ, forecast_values ([] : List MonthlyTrendRecord) n = none)
    ∧ (∀ (tt : List MonthlyTrendRecord) (n : ℕ), tt ≠ [] →
        ∃ vs : List RFloat, forecast_values tt n = some vs ∧ vs.length = n)
    ∧ (∀ (y m a v : ℤ), v ≠ 0 → ∀ n : ℕ,
        forecast_values [⟨y, m, a, v⟩] n = some (List.replicate n (RFloat.finite ((v : ℝ)))))
    ∧ (∀ (y m a : ℤ) (n : ℕ),
        forecast_values [⟨y, m, a, 0⟩] n = some (List.replicate n RFloat.nan))
    ∧ (∀ (y1 m1 a1 y2 m2 a2 v : ℤ), 0 < v → ∀ n : ℕ,
        forecast_values [⟨y1, m1, a1, 0⟩, ⟨y2, m2, a2, v⟩] n =
          some (List.replicate n RFloat.posInf)) := by
  refine ⟨fun n => rfl, ?_, ?_, ?_, ?_⟩
  · intro tt n h
    have hwin : tt.drop (tt.length - 12) ≠ [] := by
      intro hw
      rw [List.drop_eq_nil_iff] at hw
      have hlen : 0 < tt.length := List.length_pos.mpr h
      omega
    obtain ⟨lastV, hlastV⟩ := getLast?_isSome_of_ne_nil _ (series_ne_nil tt h)
    obtain ⟨first, hfirst⟩ := head?_isSome_of_ne_nil _ (series_ne_nil _ hwin)
    obtain ⟨last, hlast⟩ := getLast?_isSome_of_ne_nil _ (series_ne_nil _ hwin)
    have hg : ∃ g, avg_growth (series_17_plus (tt.drop (tt.length - 12))) = some g := by
      rw [avg_growth, hlast, hfirst]
      exact ⟨_, rfl⟩
    obtain ⟨g, hgeq⟩ := hg
    have hm : forecast_values tt n =
        match avg_growth (series_17_plus (tt.drop (tt.length - 12))),
            (series_17_plus tt).getLast? with
        | some g, some last_value =>
            some ((List.range n).map
              (fun i => RFloat.mulFin last_value ((g.addOne).powNat (i + 1))))
        | _, _ => none := rfl
    rw [hm, hgeq, hlastV]
    exact ⟨_, rfl, by simp⟩
  · intro y m a v hv n
    have hvr : ((v : ℝ)) ≠ 0 := Int.cast_ne_zero.mpr hv
    have hg : avg_growth (series_17_plus (([⟨y, m, a, v⟩] : List MonthlyTrendRecord).drop
        (([⟨y, m, a, v⟩] : List MonthlyTrendRecord).length - 12))) =
        some (RFloat.finite 0) := by
      show some (((rfdiv ((v : ℤ) : ℝ) ((v : ℤ) : ℝ)).pow12).subOne) = _
      rw [rfdiv, if_pos hvr, div_self hvr, RFloat.pow12, if_pos (by norm_num : (0 : ℝ) ≤ 1),
        Real.one_rpow]
      show some (RFloat.finite ((1 : ℝ) - 1)) = _
      norm_num
    have hm : forecast_values [⟨y, m, a, v⟩] n =
        match avg_growth (series_17_plus (([⟨y, m, a, v⟩] : List MonthlyTrendRecord).drop
            (([⟨y, m, a, v⟩] : List MonthlyTrendRecord).length - 12))),
            (series_17_plus [⟨y, m, a, v⟩]).getLast? with
        | some g, some last_value =>
            some ((List.range n).map
              (fun i => RFloat.mulFin last_value ((g.addOne).powNat (i + 1))))
        | _, _ => none := rfl
    rw [hm, hg]
    show some ((List.range n).map
        (fun i => RFloat.mulFin ((v : ℤ) : ℝ) (((RFloat.finite 0).addOne).powNat (i + 1)))) = _
    simp only [RFloat.addOne, RFloat.powNat, RFloat.mulFin]
    norm_num
  · intro y m a n
    have hg : avg_growth (series_17_plus (([⟨y, m, a, 0⟩] : List MonthlyTrendRecord).drop
        (([⟨y, m, a, 0⟩] : List MonthlyTrendRecord).length - 12))) = some RFloat.nan := by
      show some (((rfdiv ((0 : ℤ) : ℝ) ((0 : ℤ) : ℝ)).pow12).subOne) = _
      rw [rfdiv, if_neg (by norm_num), if_neg (by norm_num), if_neg (by norm_num)]
      rfl
    have hm : forecast_values [⟨y, m, a, 0⟩] n =
        match avg_growth (series_17_plus (([⟨y, m, a, 0⟩] : List MonthlyTrendRecord).drop
            (([⟨y, m, a, 0⟩] : List MonthlyTrendRecord).length - 12))),
            (series_17_plus [⟨y, m, a, 0⟩]).getLast? with
        | some g, some last_value =>
            some ((List.range n).map
              (fun i => RFloat.mulFin last_value ((g.addOne).powNat (i + 1))))
        | _, _ => none := rfl
    rw [hm, hg]
    show some ((List.range n).map
        (fun i => RFloat.mulFin ((0 : ℤ) : ℝ) ((RFloat.nan.addOne).powNat (i + 1)))) = _
    simp only [RFloat.addOne, RFloat.powNat, RFloat.mulFin, Nat.succ_ne_zero, if_false]
    simp [List.eq_replicate_iff, List.mem_map]
  · intro y1 m1 a1 y2 m2 a2 v hv n
    have hvr : (0 : ℝ) < (v : ℝ) := by exact_mod_cast hv
    have hg : avg_growth (series_17_plus
        (([⟨y1, m1, a1, 0⟩, ⟨y2, m2, a2, v⟩] : List MonthlyTrendRecord).drop
          (([⟨y1, m1, a1, 0⟩, ⟨y2, m2, a2, v⟩] : List MonthlyTrendRecord).length - 12))) =
        some RFloat.posInf := by
      show some (((rfdiv ((v : ℤ) : ℝ) ((0 : ℤ) : ℝ)).pow12).subOne) = _
      rw [rfdiv, if_neg (by norm_num), if_pos hvr]
      rfl
    have hm : forecast_values [⟨y1, m1, a1, 0⟩, ⟨y2, m2, a2, v⟩] n =
        match avg_growth (series_17_plus
            (([⟨y1, m1, a1, 0⟩, ⟨y2, m2, a2, v⟩] : List MonthlyTrendRecord).drop
              (([⟨y1, m1, a1, 0⟩, ⟨y2, m2, a2, v⟩] : List MonthlyTrendRecord).length - 12))),
            (series_17_plus [⟨y1, m1, a1, 0⟩, ⟨y2, m2, a2, v⟩]).getLast? with
        | some g, some last_value =>
            some ((List.range n).map
              (fun i => RFloat.mulFin last_value ((g.addOne).powNat (i + 1))))
        | _, _ => none := rfl
    rw [hm, hg]
    show some ((List.range n).map
        (fun i => RFloat.mulFin ((v : ℤ) : ℝ) ((RFloat.posInf.addOne).powNat (i + 1)))) = _
    simp only [RFloat.addOne, RFloat.powNat, RFloat.mulFin, Nat.succ_ne_zero, if_false,
      if_pos hvr]
    simp [List.eq_replicate_iff, List.mem_map]

/-- C2 (witness): the nonzero one-point part applied at the concrete record
`(2024, 1, 0, 100)` with horizon 2. -/
theorem forecast_no_input_validation_witness :
    forecast_values [⟨2024, 1, 0, 100⟩] 2 =
      some (List.replicate 2 (RFloat.finite (((100 : ℤ) : ℝ)))) :=
  forecast_no_input_validation.2.2.1 2024 1 0 100 (by norm_num) 2

/-- C3 (counterexample): at `baseline = 1000`, `growthRatePct = 15`,
`budgetCurrency = 0` (`budget_allocation = 0` crores), `valuePerUpdate =
500`, the spec-following `ScenarioProjection_spec` fails with
`InvalidScenarioInput`, but the source computes the scenario metrics
unconditionally — it still produces `projected = 1150`, `impact = 150`,
`costPerUpdate = 0`, and performs the ROI division with a zero denominator
(numpy yields a non-finite float there, not an error), so its outcome is a
returned result, not the claimed explicit error. -/
theorem scenario_zero_budget_not_an_error :
    ScenarioProjection_spec 1000 15 0 500 = Except.error ScenarioError.invalidScenarioInput
    ∧ Except.ok (scenario_code 1000 15 0) ≠ ScenarioProjection_spec 1000 15 0 500
    ∧ projected 1000 15 = 1150 ∧ impact 1000 15 = 150 ∧ cost_per_update 1000 15 0 = 0 := by
  refine ⟨?_, ?_, ?_, ?_, ?_⟩
  · rw [ScenarioProjection_spec]
    norm_num
  · rw [ScenarioProjection_spec]
    norm_num
    exact fun h => Except.noConfusion h
  · norm_num [projected]
  · norm_num [impact, projected]
  · norm_num [cost_per_update, impact, projected]

/-- C3 (amended): the source has no explicit `InvalidScenarioInput`
condition; for every nonzero budget it returns exactly the four metrics the
specification's success case describes (with `budgetCurrency =
budget_allocation * 10^7` and the hard-coded `valuePerUpdate = 500`), and in
particular `roiPct = (impact * 500 / budgetCurrency) * 100`. -/
theorem scenario_roi_formula_nonzero_budget :
    ∀ b g bud : ℚ, bud ≠ 0 →
      ScenarioProjection_spec b g (bud * 10000000) 500 = Except.ok (scenario_code b g bud)
      ∧ roi b g bud = impact b g * 500 / (bud * 10000000) * 100 := by
  intro b g bud hb
  constructor
  · have hbc : bud * (10000000 : ℚ) ≠ 0 := mul_ne_zero hb (by norm_num)
    rw [ScenarioProjection_spec, if_neg hbc]
    rfl
  · rfl

/-- C3 (witness): the amended theorem applied at the specification's own
example, `baseline = 1000`, `growthRatePct = 15`, `budget_allocation = 500`
crores (`budgetCurrency = 5_000_000_000`). -/
theorem scenario_roi_formula_nonzero_budget_witness :
    ScenarioProjection_spec 1000 15 (500 * 10000000) 500 =
      Except.ok (scenario_code 1000 15 500) :=
  (scenario_roi_formula_nonzero_budget 1000 15 500 (by norm_num)).1

/-- C4 (counterexample): on yearly totals `[0, 150]` — a zero
previous-year total followed by a positive year — the source's
`pct_change() * 100` produces `+inf` (numpy division semantics), not the
undefined/null value the claim requires; `+inf` and NaN are distinct. -/
theorem zero_previous_year_gives_infinity :
    growth_5_17 trendC4 = [PFloat.nan, PFloat.posInf]
    ∧ PFloat.posInf ≠ PFloat.nan := by
  constructor
  · decide
  · decide

/-- C4 (amended): when a year's preceding total is zero the computed growth
is not null in general: it is `+inf` for a positive current total, `-inf`
for a negative one, and NaN (undefined) only in the `0/0` case — the
non-finite value is propagated, not suppressed. -/
theorem yoy_zero_prev_gives_signed_infinity :
    ∀ (l : List ℤ) (i : ℕ) (curr : ℤ), l[i]? = some 0 → l[i + 1]? = some curr →
      (yoy_growth l)[i + 1]? =
        some (if 0 < curr then PFloat.posInf
          else if curr < 0 then PFloat.negInf else PFloat.nan) := by
  intro l i curr hp hc
  cases l with
  | nil => simp at hp
  | cons x xs =>
    have hfrom : (pct_change_from x xs)[i]? = some (fdiv (curr : ℚ) ((0 : ℤ) : ℚ)) := by
      apply pct_change_from_getElem xs x i curr 0
      · simpa using hc
      · exact hp
    have hidx : (yoy_growth (x :: xs))[i + 1]? = ((pct_change_from x xs)[i]?).map pct_scale := by
      simp [yoy_growth, shifted_ratios, List.getElem?_map]
    rw [hidx, hfrom]
    simp only [Option.map_some, Option.map_some', fdiv, Int.cast_zero, ne_eq, not_true_eq_false,
      if_false]
    by_cases h1 : 0 < curr
    · rw [if_pos (by exact_mod_cast h1), if_pos h1]
      rfl
    · rw [if_neg (by exact_mod_cast h1), if_neg h1]
      by_cases h2 : curr < 0
      · rw [if_pos (by exact_mod_cast h2), if_pos h2]
        rfl
      · rw [if_neg (by exact_mod_cast h2), if_neg h2]
        rfl

/-- C4 (witness): the amended theorem applied to the totals `[0, 150]`. -/
theorem yoy_zero_prev_gives_signed_infinity_witness :
    (yoy_growth [(0 : ℤ), 150])[0 + 1]? = some PFloat.posInf := by
  have h := yoy_zero_prev_gives_signed_infinity [0, 150] 0 150 (by decide) (by decide)
  norm_num at h
  exact h

/-- C5 (confirmed): for every baseline, growth rate and budget the scenario
computes `projected = baseline * (1 + growthRatePct/100)`,
`impact = projected - baseline`, and `costPerUpdate = budgetCurrency /
impact` when `impact > 0` and the defined value 0 (not an error) when
`impact ≤ 0`; on the specification's example (`baseline = 1000`,
`growthRatePct = 15`, `budgetCurrency = 500 * 10^7 = 5_000_000_000`,
`valuePerUpdate = 500`) this gives `projected = 1150`, `impact = 150`,
`costPerUpdate = 5_000_000_000 / 150` and
`roiPct = (150 * 500 / 5_000_000_000) * 100`. -/
theorem scenario_formulas :
    (∀ b g bud : ℚ,
        projected b g = b * (1 + g / 100)
        ∧ impact b g = projected b g - b
        ∧ (0 < impact b g → cost_per_update b g bud = bud * 10000000 / impact b g)
        ∧ (impact b g ≤ 0 → cost_per_update b g bud = 0))
    ∧ projected 1000 15 = 1150 ∧ impact 1000 15 = 150
    ∧ cost_per_update 1000 15 500 = 5000000000 / 150
    ∧ roi 1000 15 500 = 150 * 500 / 5000000000 * 100 := by
  refine ⟨?_, ?_, ?_, ?_, ?_⟩
  · intro b g bud
    refine ⟨rfl, rfl, ?_, ?_⟩
    · intro h
      rw [cost_per_update, if_pos h]
    · intro h
      rw [cost_per_update, if_neg (not_lt.mpr h)]
  · norm_num [projected]
  · norm_num [impact, projected]
  · norm_num [cost_per_update, impact, projected]
  · norm_num [roi, impact, projected, avg_value_per_update]

/-- C5 (witness): the conditional cost formula applied at the
specification's example, where the impact 150 is positive. -/
theorem scenario_formulas_witness :
    cost_per_update 1000 15 500 = 500 * 10000000 / impact 1000 15 :=
  (scenario_formulas.1 1000 15 500).2.2.1 (by norm_num [impact, projected])

/-- C6 (confirmed): `YearOverYearGrowth` groups the monthly records by year
(keys ascending), sums each age-group field per year, and produces one
growth entry per year: the first is NaN/undefined (not zero), and every
later entry with a nonzero preceding total equals
`(curr - prev) / prev * 100`; on records whose yearly 5-17 sums are
`[100, 150, 120]` the growth column is `[null, 50.0, -20.0]`. -/
theorem yoy_growth_semantics :
    (∀ l : List ℤ, (yoy_growth l).length = l.length
      ∧ (l ≠ [] → (yoy_growth l).head? = some PFloat.nan))
    ∧ (∀ (l : List ℤ) (i : ℕ) (curr prev : ℤ),
        l[i]? = some prev → l[i + 1]? = some curr → prev ≠ 0 →
        (yoy_growth l)[i + 1]? =
          some (PFloat.finite (((curr : ℚ) - (prev : ℚ)) / (prev : ℚ) * 100)))
    ∧ yearly_total_5_17 trendC6 = [100, 150, 120]
    ∧ growth_5_17 trendC6 = [PFloat.nan, PFloat.finite 50, PFloat.finite (-20)] := by
  refine ⟨fun l => ⟨yoy_length l, yoy_head l⟩, yoy_growth_getElem, by decide, ?_⟩
  have h : yearly_total_5_17 trendC6 = [100, 150, 120] := by decide
  rw [growth_5_17, h]
  show [PFloat.nan, pct_scale (fdiv 150 100), pct_scale (fdiv 120 150)] =
    [PFloat.nan, PFloat.finite 50, PFloat.finite (-20)]
  norm_num [fdiv, pct_scale]

/-- C6 (witness): the indexed growth formula applied to the totals
`[100, 150]`, yielding 50 percent. -/
theorem yoy_growth_semantics_witness :
    (yoy_growth [(100 : ℤ), 150])[0 + 1]? = some (PFloat.finite 50) := by
  have h := yoy_growth_semantics.2.1 [100, 150] 0 150 100 (by decide) (by decide) (by decide)
  norm_num at h
  exact h

/-- C7 (confirmed): the filter returns a subsequence of its input (original
relative order preserved); every returned row satisfies all three predicates
(state membership or the unrestricted sentinel, `avg_ATI` within the
inclusive range — so rows exactly at the bounds are kept — and
`anomaly_flag = -1` when anomalies-only is requested); every input row
satisfying the predicates is returned (an empty result is just the case
where none does); and with the unrestricted state set, a range covering all
rows and anomaliesOnly = false the input is returned unchanged. -/
theorem filter_semantics :
    ∀ (rs : List DistrictRecord) (sel : List String) (lo hi : ℚ) (anom : Bool),
      (filtered_data rs sel lo hi anom).Sublist rs
      ∧ (∀ r ∈ filtered_data rs sel lo hi anom,
          ("All States" ∈ sel ∨ r.state ∈ sel) ∧ lo ≤ r.avg_ATI ∧ r.avg_ATI ≤ hi ∧
            (anom = true → r.anomaly_flag = -1))
      ∧ (∀ r ∈ rs, ("All States" ∈ sel ∨ r.state ∈ sel) → lo ≤ r.avg_ATI → r.avg_ATI ≤ hi →
          (anom = true → r.anomaly_flag = -1) → r ∈ filtered_data rs sel lo hi anom)
      ∧ ("All States" ∈ sel → (∀ r ∈ rs, lo ≤ r.avg_ATI ∧ r.avg_ATI ≤ hi) →
          filtered_data rs sel lo hi false = rs) := by
  intro rs sel lo hi anom
  refine ⟨filtered_sublist rs sel lo hi anom, ?_, ?_, ?_⟩
  · intro r hr
    exact ((mem_filtered_iff rs sel lo hi anom r).mp hr).2
  · intro r hmem hstate hlo hhi hflag
    exact (mem_filtered_iff rs sel lo hi anom r).mpr ⟨hmem, hstate, hlo, hhi, hflag⟩
  · intro hall hrange
    rw [filtered_data]
    simp only [if_pos hall, if_neg (Bool.false_ne_true)]
    rw [List.filter_eq_self]
    intro a ha
    simp only [Bool.and_eq_true, decide_eq_true_eq]
    exact hrange a ha

/-- C7 (witness): the identity case applied to a one-row table with the
sentinel state selection, a covering range and anomaliesOnly off. -/
theorem filter_semantics_witness :
    filtered_data [dC7] ["All States"] 0 2 false = [dC7] :=
  (filter_semantics [dC7] ["All States"] 0 2 false).2.2.2 (by simp) (by decide)

/-- C8 (confirmed): `TopN` (pandas `nlargest` with `keep='first'`) returns a
selection of rows that together with the unselected rows is a permutation of
the input; the selection is in descending key order; every selected row has
a key at least that of every unselected row (so it is the `n` largest); rows
with any fixed key value appear in input order (stable ties: the selection's
rows of key `c` are an initial segment of the input's rows of key `c`); when
`n` is at least the record count the whole input is returned sorted
descending; and on ATI values `[1, 5, 3]` with `n = 3` the result is
`[5, 3, 1]`. -/
theorem topn_semantics :
    (∀ (α : Type) (n : ℕ) (key : α → ℚ) (l : List α),
        List.Perm l (nlargest n key l ++ (sort_desc key l).drop n)
        ∧ (nlargest n key l).Pairwise (fun a b => key b ≤ key a)
        ∧ (∀ a ∈ nlargest n key l, ∀ b ∈ (sort_desc key l).drop n, key b ≤ key a)
        ∧ (∀ c : ℚ, ∃ m, (l.filter (fun r => decide (key r = c))).take m =
            (nlargest n key l).filter (fun r => decide (key r = c)))
        ∧ (l.length ≤ n → nlargest n key l = sort_desc key l))
    ∧ nlargest 3 (fun r => r.avg_ATI) [dATI1, dATI5, dATI3] = [dATI5, dATI3, dATI1]
    ∧ nlargest 5 (fun r => r.avg_ATI) [dATI1, dATI5, dATI3] = [dATI5, dATI3, dATI1] := by
  refine ⟨?_, by decide, by decide⟩
  intro α n key l
  refine ⟨?_, ?_, ?_, ?_, ?_⟩
  · have h := perm_insertionSortBy (fun a b => decide (key b ≤ key a)) l
    have heq : sort_desc key l = nlargest n key l ++ (sort_desc key l).drop n :=
      (List.take_append_drop n _).symm
    rw [← heq]
    exact h.symm
  · exact (pairwise_sort_desc key l).sublist (List.take_sublist n _)
  · intro a ha b hb
    have hp := pairwise_sort_desc key l
    rw [← List.take_append_drop n (sort_desc key l)] at hp
    exact (List.pairwise_append.mp hp).2.2 a ha b hb
  · intro c
    rcases take_filter_comm_exists (fun r => decide (key r = c)) (sort_desc key l) n with ⟨m, hm⟩
    refine ⟨m, ?_⟩
    rw [← filter_sort_desc key c l, hm]
    rfl
  · intro h
    have hlen : (sort_desc key l).length ≤ n := by
      have hperm := (perm_insertionSortBy (fun a b => decide (key b ≤ key a)) l).length_eq
      rw [sort_desc, hperm]
      exact h
    exact List.take_of_length_le hlen

/-- C8 (witness): the `n` exceeding the record count case applied to the
three-row ATI example with `n = 5`. -/
theorem topn_semantics_witness :
    nlargest 5 (fun r => r.avg_ATI) [dATI1, dATI5, dATI3] =
      sort_desc (fun r => r.avg_ATI) [dATI1, dATI5, dATI3] :=
  (topn_semantics.1 DistrictRecord 5 (fun r => r.avg_ATI) [dATI1, dATI5, dATI3]).2.2.2.2
    (by norm_num)

/-- C9 (confirmed): one full pass of the dashboard's derived computations —
the filter, the aggregate totals and anomaly count, both TopN tables, the
year-over-year growth columns, the forecast and the scenario metrics —
returns the loaded tables unchanged: every embedded operation only reads
`district_profile` and `time_trends` (each pandas step in the source returns
a fresh object and nothing assigns into the loaded frames), so all results
are freshly derived values. -/
theorem run_dashboard_preserves_tables :
    ∀ (t : Tables) (p : DashboardParams), (run_dashboard t p).1 = t :=
  fun _ _ => rfl

/-- C10 (confirmed): the spec's `Anomaly` enum value is the integer `-1` at
the code's interface: anomalies-only filtering keeps exactly the rows of the
unrestricted filter whose `anomaly_flag` equals `-1`; `anomalyCount` counts
exactly the rows with `anomaly_flag = -1`; and a row with any other flag
value (such as `1`, the normal flag) is never returned by anomalies-only
filtering and never counted. -/
theorem anomaly_flag_semantics :
    (∀ (rs : List DistrictRecord) (sel : List String) (lo hi : ℚ) (r : DistrictRecord),
        r ∈ filtered_data rs sel lo hi true ↔
          r ∈ filtered_data rs sel lo hi false ∧ r.anomaly_flag = -1)
    ∧ (∀ rs : List DistrictRecord,
        anomaly_count rs = (rs.filter (fun r => decide (r.anomaly_flag = -1))).length)
    ∧ (∀ (rs : List DistrictRecord) (sel : List String) (lo hi : ℚ) (r : DistrictRecord),
        r.anomaly_flag = 1 → r ∉ filtered_data rs sel lo hi true)
    ∧ (∀ (r : DistrictRecord) (rest : List DistrictRecord),
        r.anomaly_flag = 1 → anomaly_count (r :: rest) = anomaly_count rest) := by
  have hiff : ∀ (rs : List DistrictRecord) (sel : List String) (lo hi : ℚ) (r : DistrictRecord),
      r ∈ filtered_data rs sel lo hi true ↔
        r ∈ filtered_data rs sel lo hi false ∧ r.anomaly_flag = -1 := by
    intro rs sel lo hi r
    rw [mem_filtered_iff, mem_filtered_iff]
    constructor
    · rintro ⟨h1, h2, h3, h4, h5⟩
      exact ⟨⟨h1, h2, h3, h4, fun h => absurd h (by simp)⟩, h5 rfl⟩
    · rintro ⟨⟨h1, h2, h3, h4, h6⟩, h5⟩
      exact ⟨h1, h2, h3, h4, fun h => h5⟩
  refine ⟨hiff, ?_, ?_, ?_⟩
  · intro rs
    rw [anomaly_count, List.countP_eq_length_filter]
    congr 1
  · intro rs sel lo hi r hflag hmem
    have h := ((hiff rs sel lo hi r).mp hmem).2
    rw [hflag] at h
    norm_num at h
  · intro r rest hflag
    rw [anomaly_count, anomaly_count, List.countP_cons]
    have hfalse : (r.anomaly_flag == -1) = false := by
      rw [hflag]
      decide
    rw [hfalse]
    rfl

/-- C10 (witness): a row with the normal flag `1` is not counted (applied to
the concrete row `dNormal`). -/
theorem anomaly_flag_semantics_witness :
    anomaly_count [dNormal] = anomaly_count [] :=
  anomaly_flag_semantics.2.2.2 dNormal [] rfl
